import Mathlib

/-!
Shallow embedding of the symbotic-poc-routing repository.

The Go server (src/server/main.go) is modelled on a 64-bit platform
(Go `int` = int64), which is the deployment target of this proof of
concept (Docker Compose / Kubernetes on amd64).  Go strings are byte
sequences, so strings are modelled as lists of byte values (`List Nat`).
Environment variables are modelled as an explicit record `Env` threaded
through each function; the Go code reads them through `os.Getenv`, for
which a missing variable and the empty string are the same value, so a
missing variable is modelled as the empty byte list.

Fallible operations (slice indexing, which panics out of bounds in Go)
return `Option`: `none` models a panic.
-/

namespace Routing

/-- Byte strings: the model of Go `string` / `[]byte` values. -/
abbrev Str := List Nat

/-- Byte list of an ASCII string literal (used for the literals that occur
in the source; all of them are ASCII). -/
def ascii (s : String) : Str := s.data.map Char.toNat

/-- FNV-1a 32-bit offset basis (Go hash/fnv). -/
def fnvOffset32 : Nat := 2166136261

/-- FNV-1a 32-bit prime (Go hash/fnv). -/
def fnvPrime32 : Nat := 16777619

/-- One step of FNV-1a: xor in the byte, multiply by the prime mod 2^32. -/
def fnv32aStep (h b : Nat) : Nat := ((Nat.xor h b) * fnvPrime32) % 4294967296

/-- Go `fnv.New32a(); h.Write(bytes); h.Sum32()` over the bytes of a string. -/
def fnv32a (s : Str) : Nat := s.foldl fnv32aStep fnvOffset32

/-- ASCII decimal digit test, as in Go strconv's per-byte digit check. -/
def isDigit (b : Nat) : Bool := 48 ≤ b && b ≤ 57

/-- Value of a nonempty all-digit byte string; `none` on empty input or any
non-digit byte (the syntax-error cases of Go strconv.ParseUint, base 10). -/
def digitsVal (s : Str) : Option Nat :=
  if s = [] then none
  else if s.all isDigit then some (s.foldl (fun a b => a * 10 + (b - 48)) 0)
  else none

/-- Largest int64 value, 2^63 - 1. -/
def int64Max : Nat := 9223372036854775807

/-- Go `strconv.Atoi` on a 64-bit platform: optional sign, then decimal
digits; errors (here `none`) on empty input, stray bytes, or a value
outside [-2^63, 2^63 - 1]. -/
def goAtoi (s : Str) : Option Int :=
  match s with
  | [] => none
  | b :: rest =>
    if b = 45 then
      match digitsVal rest with
      | some v => if v ≤ int64Max + 1 then some (-(v : Int)) else none
      | none => none
    else if b = 43 then
      match digitsVal rest with
      | some v => if v ≤ int64Max then some (v : Int) else none
      | none => none
    else
      match digitsVal s with
      | some v => if v ≤ int64Max then some (v : Int) else none
      | none => none

/-- Two's-complement wrap-around into the int64 range, the defined overflow
behaviour of Go signed integers. -/
def wrap64 (x : Int) : Int :=
  (x + 9223372036854775808) % 18446744073709551616 - 9223372036854775808

/-- Go `if n < 0 { n = -n }` on an int64: negation wraps around at the
minimal int64 value (the absolute value -2^63 is not representable). -/
def goAbs (n : Int) : Int := if n < 0 then wrap64 (-n) else n

/-- UTF-8 encodings of the Unicode White_Space code points, the set trimmed
by Go `strings.TrimSpace`. -/
def wsSeqs : List Str :=
  [[9], [10], [11], [12], [13], [32], [194, 133], [194, 160], [225, 154, 128],
   [226, 128, 128], [226, 128, 129], [226, 128, 130], [226, 128, 131],
   [226, 128, 132], [226, 128, 133], [226, 128, 134], [226, 128, 135],
   [226, 128, 136], [226, 128, 137], [226, 128, 138], [226, 128, 168],
   [226, 128, 169], [226, 128, 175], [226, 129, 159], [227, 128, 128]]

/-- Drop one leading whitespace sequence, if any. -/
def dropWs1 (seqs : List Str) (s : Str) : Option Str :=
  (seqs.find? (fun w => w.isPrefixOf s)).map (fun w => s.drop w.length)

/-- Repeatedly drop leading whitespace sequences (fuelled; the fuel
`s.length` suffices because every sequence is nonempty). -/
def trimEdge (seqs : List Str) : Nat → Str → Str
  | 0, s => s
  | Nat.succ f, s =>
    match dropWs1 seqs s with
    | some t => trimEdge seqs f t
    | none => s

/-- Go `strings.TrimSpace` over UTF-8 bytes: strip whitespace runes from
both ends (the right end is trimmed on the reversed byte list against the
reversed encodings). -/
def trimSpace (s : Str) : Str :=
  let l := trimEdge wsSeqs s.length s
  (trimEdge (wsSeqs.map List.reverse) l.length l.reverse).reverse

/-- ASCII lower-casing of one byte. -/
def toLowerByte (b : Nat) : Nat := if 65 ≤ b ∧ b ≤ 90 then b + 32 else b

/-- Go `strings.ToLower`, modelled for ASCII bytes (the Go function also
lower-cases non-ASCII letters; the configuration values compared against
the ASCII literal "numeric" make the two agree on all inputs relevant
here). -/
def goToLower (s : Str) : Str := s.map toLowerByte

/-- The process environment and identity: one field per environment
variable the server reads, plus the hostname reported by `os.Hostname`.
`SERVICE_PFX` models the SERVICE_PREFIX environment variable. -/
structure Env where
  PORT : Str := []
  SERVICE_PFX : Str := []
  SERVICE_SUFFIX : Str := []
  REPLICAS : Str := []
  INDEX_MODE : Str := []
  INDEX_BASE : Str := []
  SERVER_PEERS : Str := []
  hostname : Str := []
deriving DecidableEq

/-- Decimal digits of a natural number (fuelled division loop). -/
def natDigitsAux : Nat → Nat → Str → Str
  | 0, _, acc => acc
  | Nat.succ f, n, acc =>
    if n = 0 then acc else natDigitsAux f (n / 10) ((48 + n % 10) :: acc)

/-- Decimal byte string of a natural number. -/
def natToStr (n : Nat) : Str := if n = 0 then [48] else natDigitsAux (n + 1) n []

/-- Go `fmt.Sprintf("%d", i)` for an integer. -/
def intToStr (i : Int) : Str :=
  if i < 0 then 45 :: natToStr (-i).toNat else natToStr i.toNat

/-- The PORT default logic: Go `port := os.Getenv("PORT"); if port == ""
{ port = "8081" }`. -/
def goPort (env : Env) : Str := if env.PORT = [] then ascii "8081" else env.PORT

/-- Go `getSelf` (src/server/main.go lines 14-22):
`fmt.Sprintf("%s:%s", hostname, port)`. -/
def getSelf (env : Env) : Str := env.hostname ++ ascii ":" ++ goPort env

/-- Go `strings.Split(s, sep)` for a one-byte separator: splitting the
empty string yields one empty field. -/
def splitByte (sep : Nat) : Str → List Str
  | [] => [[]]
  | b :: rest =>
    if b = sep then [] :: splitByte sep rest
    else
      match splitByte sep rest with
      | [] => [[b]]
      | t :: ts => (b :: t) :: ts

/-- The peer-list filter of pickByHashLegacy: split SERVER_PEERS on commas,
trim whitespace, drop empty entries. -/
def filteredPeers (env : Env) : List Str :=
  ((splitByte 44 env.SERVER_PEERS).map trimSpace).filter (fun p => p ≠ [])

/-- Go slice indexing with an int index: panics (modelled as `none`)
outside the bounds [0, length). -/
def goIndex (l : List Str) (i : Int) : Option Str :=
  if h : 0 ≤ i ∧ i.toNat < l.length then some (l.get ⟨i.toNat, h.2⟩) else none

/-- The index computed by pickByHashLegacy: `int(h.Sum32()) % len(filtered)`
in Go int (int64) arithmetic, which truncates toward zero. -/
def legacyIdx (env : Env) (cid : Str) : Int :=
  ((fnv32a cid : Int)).tmod ((filteredPeers env).length : Int)

/-- Go `pickByHashLegacy` (src/server/main.go lines 25-45). -/
def pickByHashLegacy (env : Env) (clientID : Str) : Option Str :=
  if env.SERVER_PEERS = [] then some (getSelf env)
  else
    if filteredPeers env = [] then some (getSelf env)
    else goIndex (filteredPeers env) (legacyIdx env clientID)

/-- The INDEX_BASE block of computeIndex: default 1, overridden by a
parseable trimmed INDEX_BASE value. -/
def parseBase (s : Str) : Int :=
  let v := trimSpace s
  if v = [] then 1
  else
    match goAtoi v with
    | some b => b
    | none => 1

/-- The hash branch of computeIndex: `int(h.Sum32()) % replicas` in Go int
(int64) arithmetic. -/
def hashRemainder (cid : Str) (replicas : Int) : Int :=
  ((fnv32a cid : Int)).tmod replicas

/-- Go `computeIndex` (src/server/main.go lines 49-81): clamp replicas to
at least 1, read INDEX_MODE / INDEX_BASE, then numeric remainder (with
hash fallback on parse failure) or hash remainder, plus the base. -/
def computeIndex (env : Env) (clientID : Str) (replicas0 : Int) : Int :=
  let replicas := if replicas0 ≤ 0 then 1 else replicas0
  let base := parseBase env.INDEX_BASE
  let remainder :=
    if goToLower (trimSpace env.INDEX_MODE) = ascii "numeric" then
      match goAtoi clientID with
      | some n => (goAbs n).tmod replicas
      | none => hashRemainder clientID replicas
    else hashRemainder clientID replicas
  remainder + base

/-- The REPLICAS block of pickByHashScaled: unparseable or non-positive
REPLICAS means 1. -/
def parseReplicas (s : Str) : Int :=
  match goAtoi s with
  | some r => if r ≤ 0 then 1 else r
  | none => 1

/-- Go `pickByHashScaled` (src/server/main.go lines 86-103): with a
nonempty SERVICE_PREFIX, format `prefix-<idx><suffix>:<port>`; otherwise
fall back to pickByHashLegacy. -/
def pickByHashScaled (env : Env) (clientID : Str) : Option Str :=
  if env.SERVICE_PFX = [] then pickByHashLegacy env clientID
  else
    some (env.SERVICE_PFX ++ ascii "-"
          ++ intToStr (computeIndex env clientID (parseReplicas env.REPLICAS))
          ++ env.SERVICE_SUFFIX ++ ascii ":" ++ goPort env)

/-- An HTTP response of the Directory Service, at the abstraction of the
handlers: either a plain-text error (Go `http.Error`) or a JSON object,
modelled as its field list in the sorted key order in which Go
encoding/json serialises a map. -/
inductive HResp where
  | plain (status : Nat) (body : Str)
  | json (status : Nat) (fields : List (Str × Str))
deriving DecidableEq

/-- Go `handleWhere` (src/server/main.go lines 123-138): `clientID` is the
value of the client_id query parameter (the empty string when the
parameter is absent, as returned by `URL.Query().Get`). -/
def handleWhere (env : Env) (clientID : Str) : Option HResp :=
  if clientID = [] then some (HResp.plain 400 (ascii "missing client_id"))
  else
    match pickByHashScaled env clientID with
    | some hp =>
      some (HResp.json 200 [(ascii "client_id", clientID), (ascii "hostport", hp)])
    | none => none

/-- Go `handleJoin` (src/server/main.go lines 105-121). -/
def handleJoin (env : Env) (clientID : Str) : HResp :=
  if clientID = [] then HResp.plain 400 (ascii "missing client_id")
  else
    HResp.json 200 [(ascii "assigned", getSelf env),
                    (ascii "client_id", clientID),
                    (ascii "status", ascii "ok")]

/-- The "assigned" field of a response, when the response is a JSON object
carrying one. -/
def assignedField (r : HResp) : Option Str :=
  match r with
  | HResp.json _ fields =>
    (fields.find? (fun kv => kv.1 = ascii "assigned")).map (fun kv => kv.2)
  | HResp.plain _ _ => none

/-- The response-headers object of the Lua side call, reduced to the one
field the filter reads: the value of ":status" (possibly absent). -/
structure LuaHeaders where
  status : Option Str
deriving DecidableEq

/-- Outcome of the Lua `pcall(handle.httpCall, ...)`: `ok` is the pcall
success flag, `respHeaders` and `respBody` may each be nil (`none`). -/
structure SideCallResult where
  ok : Bool
  respHeaders : Option LuaHeaders
  respBody : Option Str
deriving DecidableEq

/-- Observable outcome of the Lua filter on the original request: an
immediate local response, or forwarding with the authority rewritten. -/
inductive LuaOutcome where
  | respond (status : Str) (body : Str)
  | forwardTo (authority : Str)
deriving DecidableEq

/-- Lua pattern class %s: the six ASCII whitespace bytes. -/
def luaSpace (b : Nat) : Bool := b = 32 ∨ b = 9 ∨ b = 10 ∨ b = 11 ∨ b = 12 ∨ b = 13

/-- The literal `"hostport"` (with its quotes) of the Lua pattern. -/
def hostportLit : Str := ascii "\"hostport\""

/-- Try the Lua pattern at one start position: the literal, optional
whitespace, a colon, optional whitespace, a quote, then a nonempty capture
of non-quote bytes closed by a quote. -/
def matchHostportAt (s : Str) : Option Str :=
  if hostportLit.isPrefixOf s then
    match (s.drop hostportLit.length).dropWhile luaSpace with
    | 58 :: s2 =>
      (match s2.dropWhile luaSpace with
       | 34 :: s3 =>
         let cap := s3.takeWhile (fun b => b ≠ 34)
         if cap ≠ [] ∧ (s3.drop cap.length).head? = some 34 then some cap
         else none
       | _ => none)
    | _ => none
  else none

/-- Lua `string.match(body, [pattern for a quoted hostport field])`:
leftmost match wins. -/
def luaMatchHostport : Str → Option Str
  | [] => none
  | b :: rest =>
    match matchHostportAt (b :: rest) with
    | some c => some c
    | none => luaMatchHostport rest

/-- Lua `tostring` applied to the status value (a string or nil). -/
def luaToString (s : Option Str) : Str :=
  match s with
  | some v => v
  | none => ascii "nil"

/-- The ":status" value read out of the side-call headers (nil when the
headers object is nil or carries no status). -/
def headersStatus (sc : SideCallResult) : Option Str :=
  match sc.respHeaders with
  | some h => h.status
  | none => none

/-- The side-call handling of `envoy_on_request` (src/lua/routing.lua
lines 29-58), as a function of the side-call outcome: pcall failure or nil
headers, a status other than "200", and an absent or unmatchable body all
produce a local 502 response; only a matched hostport rewrites the
authority and lets the request be forwarded. -/
def envoyDispatch (sc : SideCallResult) : LuaOutcome :=
  if sc.ok = false ∨ sc.respHeaders = none then
    LuaOutcome.respond (ascii "502") (ascii "resolver httpCall failed")
  else
    if headersStatus sc ≠ some (ascii "200") then
      LuaOutcome.respond (ascii "502")
        (ascii "resolver returned " ++ luaToString (headersStatus sc))
    else
      match sc.respBody with
      | none => LuaOutcome.respond (ascii "502") (ascii "no hostport in resolver body")
      | some b =>
        match luaMatchHostport b with
        | none => LuaOutcome.respond (ascii "502") (ascii "no hostport in resolver body")
        | some hp => LuaOutcome.forwardTo hp

/-- Concrete environment: NUMERIC mode with base 0. -/
def envNumericBase0 : Env := { INDEX_MODE := ascii "numeric", INDEX_BASE := ascii "0" }

/-- Concrete environment: base 0, INDEX_MODE left at its default. -/
def envBase0Only : Env := { INDEX_BASE := ascii "0" }

/-- Concrete environment: HASH mode with base 1. -/
def envHashBase1 : Env := { INDEX_MODE := ascii "hash", INDEX_BASE := ascii "1" }

/-- Concrete environment for the templated tier. -/
def envTier1 : Env :=
  { SERVICE_PFX := ascii "server", REPLICAS := ascii "2", INDEX_BASE := ascii "1" }

/-- Concrete environment for the legacy-peers tier. -/
def envTier2 : Env := { SERVER_PEERS := ascii "a:1,b:2" }

/-- Concrete environment for the self tier. -/
def envTier3 : Env := { hostname := ascii "host" }

/-- The decimal string of the minimal int64 value. -/
def minInt64Str : Str := ascii "-9223372036854775808"

lemma tmod_natCast (m n : Nat) :
    ((m : Int)).tmod ((n : Int)) = ((m % n : Nat) : Int) := rfl

lemma goIndex_mod (l : List Str) (m : Nat) (h : l ≠ []) :
    goIndex l (((m : Int)).tmod ((l.length : Int)))
      = some (l.get ⟨m % l.length, Nat.mod_lt m (List.length_pos.mpr h)⟩) := by
  have hlen : 0 < l.length := List.length_pos.mpr h
  rw [tmod_natCast]
  unfold goIndex
  rw [dif_pos ⟨by omega, by simpa using Nat.mod_lt m hlen⟩]
  rfl

lemma filteredPeers_of_empty (env : Env) (h : env.SERVER_PEERS = []) :
    filteredPeers env = [] := by
  unfold filteredPeers
  rw [h]
  rfl

lemma pickByHashLegacy_some (env : Env) (cid : Str) :
    ∃ hp, pickByHashLegacy env cid = some hp := by
  unfold pickByHashLegacy
  by_cases h1 : env.SERVER_PEERS = []
  · rw [if_pos h1]; exact ⟨_, rfl⟩
  · rw [if_neg h1]
    by_cases h2 : filteredPeers env = []
    · rw [if_pos h2]; exact ⟨_, rfl⟩
    · rw [if_neg h2]
      unfold legacyIdx
      exact ⟨_, goIndex_mod (filteredPeers env) (fnv32a cid) h2⟩

lemma pickByHashScaled_some (env : Env) (cid : Str) :
    ∃ hp, pickByHashScaled env cid = some hp := by
  unfold pickByHashScaled
  by_cases h : env.SERVICE_PFX = []
  · rw [if_pos h]; exact pickByHashLegacy_some env cid
  · rw [if_neg h]; exact ⟨_, rfl⟩

lemma hashRemainder_one (cid : Str) : hashRemainder cid 1 = 0 := by
  unfold hashRemainder
  rw [show (1 : Int) = ((1 : Nat) : Int) from rfl, tmod_natCast, Nat.mod_one]
  rfl

/-- C1: the claimed range guarantee fails in the code: in NUMERIC mode with
base 0 and replicaCount 5, the clientID "-9223372036854775808" (the minimal
int64, accepted by strconv.Atoi) is negated with wrap-around, and
computeIndex returns -3, below the claimed interval [0, 4]. -/
theorem C1_computeIndex_minint_below_base :
    computeIndex envNumericBase0 minInt64Str 5 = -3 ∧
    computeIndex envNumericBase0 minInt64Str 5 < 0 := by decide

/-- C2: for a fixed configuration, the mapping from clientID to computed
index and to selected address is deterministic: equal environments and
equal client identifiers give identical results of computeIndex and
pickByHashScaled. -/
theorem C2_selection_deterministic (e1 e2 : Env) (a b : Str) (r1 r2 : Int)
    (he : e1 = e2) (hc : a = b) (hr : r1 = r2) :
    computeIndex e1 a r1 = computeIndex e2 b r2 ∧
    pickByHashScaled e1 a = pickByHashScaled e2 b := by
  subst he; subst hc; subst hr
  exact ⟨rfl, rfl⟩

/-- Witness for C2 at a concrete environment and clientID. -/
theorem C2_selection_deterministic_witness :
    computeIndex envNumericBase0 (ascii "123") 2
      = computeIndex envNumericBase0 (ascii "123") 2 ∧
    pickByHashScaled envNumericBase0 (ascii "123")
      = pickByHashScaled envNumericBase0 (ascii "123") :=
  C2_selection_deterministic envNumericBase0 envNumericBase0
    (ascii "123") (ascii "123") 2 2 rfl rfl rfl

/-- C3: address selection follows the three-tier fallback exactly: a
nonempty SERVICE_PREFIX yields the templated address; otherwise a nonempty
filtered peer list yields the peer at the FNV-1a hash modulo the list
length; otherwise the process's own hostname:port. -/
theorem C3_three_tier_fallback (env : Env) (cid : Str) :
    (env.SERVICE_PFX ≠ [] →
      pickByHashScaled env cid
        = some (env.SERVICE_PFX ++ ascii "-"
            ++ intToStr (computeIndex env cid (parseReplicas env.REPLICAS))
            ++ env.SERVICE_SUFFIX ++ ascii ":" ++ goPort env)) ∧
    (env.SERVICE_PFX = [] →
      ∀ h2 : filteredPeers env ≠ [],
        pickByHashScaled env cid
          = some ((filteredPeers env).get
              ⟨fnv32a cid % (filteredPeers env).length,
               Nat.mod_lt (fnv32a cid) (List.length_pos.mpr h2)⟩)) ∧
    (env.SERVICE_PFX = [] → filteredPeers env = [] →
      pickByHashScaled env cid = some (getSelf env)) := by
  refine ⟨fun h1 => ?_, fun h1 h2 => ?_, fun h1 h2 => ?_⟩
  · unfold pickByHashScaled
    rw [if_neg h1]
  · have hpeers : env.SERVER_PEERS ≠ [] := by
      intro hq
      exact h2 (filteredPeers_of_empty env hq)
    unfold pickByHashScaled pickByHashLegacy
    rw [if_pos h1, if_neg hpeers, if_neg h2]
    unfold legacyIdx
    exact goIndex_mod (filteredPeers env) (fnv32a cid) h2
  · unfold pickByHashScaled pickByHashLegacy
    rw [if_pos h1]
    by_cases hq : env.SERVER_PEERS = []
    · rw [if_pos hq]
    · rw [if_neg hq, if_pos h2]

/-- Witness for C3: one concrete environment per tier. -/
theorem C3_three_tier_fallback_witness :
    pickByHashScaled envTier1 (ascii "123")
      = some (envTier1.SERVICE_PFX ++ ascii "-"
          ++ intToStr (computeIndex envTier1 (ascii "123") (parseReplicas envTier1.REPLICAS))
          ++ envTier1.SERVICE_SUFFIX ++ ascii ":" ++ goPort envTier1) ∧
    pickByHashScaled envTier2 (ascii "abc")
      = some ((filteredPeers envTier2).get
          ⟨fnv32a (ascii "abc") % (filteredPeers envTier2).length,
           Nat.mod_lt (fnv32a (ascii "abc")) (List.length_pos.mpr (by decide))⟩) ∧
    pickByHashScaled envTier3 (ascii "x") = some (getSelf envTier3) :=
  ⟨(C3_three_tier_fallback envTier1 (ascii "123")).1 (by decide),
   (C3_three_tier_fallback envTier2 (ascii "abc")).2.1 rfl (by decide),
   (C3_three_tier_fallback envTier3 (ascii "x")).2.2 rfl (by decide)⟩

/-- C4: both handlers reject a missing or empty client_id with a 400
plain-text response "missing client_id" and never a JSON body; a nonempty
client_id yields a 200 JSON response echoing the client_id unchanged. -/
theorem C4_client_id_validation (env : Env) (cid : Str) :
    (cid = [] →
      handleWhere env cid = some (HResp.plain 400 (ascii "missing client_id")) ∧
      handleJoin env cid = HResp.plain 400 (ascii "missing client_id")) ∧
    (cid ≠ [] →
      (∃ hp, handleWhere env cid
          = some (HResp.json 200 [(ascii "client_id", cid), (ascii "hostport", hp)])) ∧
      handleJoin env cid
        = HResp.json 200 [(ascii "assigned", getSelf env),
                          (ascii "client_id", cid),
                          (ascii "status", ascii "ok")]) := by
  constructor
  · intro h
    constructor
    · unfold handleWhere; rw [if_pos h]
    · unfold handleJoin; rw [if_pos h]
  · intro h
    obtain ⟨hp, hhp⟩ := pickByHashScaled_some env cid
    refine ⟨⟨hp, ?_⟩, ?_⟩
    · unfold handleWhere; rw [if_neg h, hhp]
    · unfold handleJoin; rw [if_neg h]

/-- Witness for C4: the empty and a nonempty client_id against a concrete
environment. -/
theorem C4_client_id_validation_witness :
    (handleWhere envTier3 [] = some (HResp.plain 400 (ascii "missing client_id")) ∧
     handleJoin envTier3 [] = HResp.plain 400 (ascii "missing client_id")) ∧
    ((∃ hp, handleWhere envTier3 (ascii "9")
        = some (HResp.json 200 [(ascii "client_id", ascii "9"), (ascii "hostport", hp)])) ∧
     handleJoin envTier3 (ascii "9")
       = HResp.json 200 [(ascii "assigned", getSelf envTier3),
                         (ascii "client_id", ascii "9"),
                         (ascii "status", ascii "ok")]) :=
  ⟨(C4_client_id_validation envTier3 []).1 rfl,
   (C4_client_id_validation envTier3 (ascii "9")).2 (by decide)⟩

/-- C5: the concrete NUMERIC-mode examples hold ("7" gives 2, "-7" gives
2 at replicaCount 5, base 0), but the general rule "remainder is the
absolute value of n modulo replicaCount" fails at the minimal int64
clientID, where the code returns -3 instead of 2^63 mod 5 = 3. -/
theorem C5_numeric_mode_remainder :
    computeIndex envNumericBase0 (ascii "7") 5 = 2 ∧
    computeIndex envNumericBase0 (ascii "-7") 5 = 2 ∧
    computeIndex envNumericBase0 minInt64Str 5
      ≠ (9223372036854775808 : Int) % 5 := by decide

/-- C6: whenever the clientID does not parse as an int64, NUMERIC mode
silently computes exactly the HASH-mode result, for every replica count
and any otherwise-equal environment. -/
theorem C6_numeric_parse_fallback (env : Env) (cid : Str) (r : Int)
    (h : goAtoi cid = none) :
    computeIndex { env with INDEX_MODE := ascii "numeric" } cid r
      = computeIndex { env with INDEX_MODE := ascii "hash" } cid r := by
  have h1 : goToLower (trimSpace (ascii "numeric")) = ascii "numeric" := by decide
  have h2 : ¬ (goToLower (trimSpace (ascii "hash")) = ascii "numeric") := by decide
  simp only [computeIndex, h, h1, h2, if_true, if_false]

/-- Witness for C6 at the unparseable clientID "abc" with replicaCount 5
and base 0. -/
theorem C6_numeric_parse_fallback_witness :
    goAtoi (ascii "abc") = none ∧
    computeIndex { envBase0Only with INDEX_MODE := ascii "numeric" } (ascii "abc") 5
      = computeIndex { envBase0Only with INDEX_MODE := ascii "hash" } (ascii "abc") 5 :=
  ⟨by decide, C6_numeric_parse_fallback envBase0Only (ascii "abc") 5 (by decide)⟩

/-- C7: a non-positive replica count is clamped to 1, so in HASH mode with
base 1 every clientID maps to 1, for replica count 0 and 1 alike. -/
theorem C7_nonpositive_replicas_clamp (cid : Str) :
    computeIndex envHashBase1 cid 0 = 1 ∧ computeIndex envHashBase1 cid 1 = 1 := by
  have h2 : ¬ (goToLower (trimSpace envHashBase1.INDEX_MODE) = ascii "numeric") := by
    decide
  have hb : parseBase envHashBase1.INDEX_BASE = 1 := by decide
  constructor <;>
  · simp only [computeIndex, h2, if_false, hb]
    norm_num [hashRemainder_one]

/-- C8: in the Lua dispatcher, a failed side call, nil headers, a status
other than "200", or a body with no matchable hostport all produce a local
502 response (the request is not forwarded); only a successful call with
status "200" and a matched hostport rewrites the authority and forwards. -/
theorem C8_sidecall_gateway (sc : SideCallResult) :
    ((sc.ok = false ∨ sc.respHeaders = none ∨
      headersStatus sc ≠ some (ascii "200") ∨
      sc.respBody.bind luaMatchHostport = none) →
      ∃ b, envoyDispatch sc = LuaOutcome.respond (ascii "502") b) ∧
    (∀ hp, sc.ok = true → headersStatus sc = some (ascii "200") →
      sc.respBody.bind luaMatchHostport = some hp →
      envoyDispatch sc = LuaOutcome.forwardTo hp) := by
  obtain ⟨ok, hdrs, body⟩ := sc
  constructor
  · intro h
    cases ok with
    | false => exact ⟨ascii "resolver httpCall failed", by simp [envoyDispatch]⟩
    | true =>
      cases hdrs with
      | none => exact ⟨ascii "resolver httpCall failed", by simp [envoyDispatch]⟩
      | some hobj =>
        obtain ⟨st⟩ := hobj
        by_cases hst : st = some (ascii "200")
        · subst hst
          cases body with
          | none =>
            exact ⟨ascii "no hostport in resolver body",
                   by simp [envoyDispatch, headersStatus]⟩
          | some b =>
            have hm : luaMatchHostport b = none := by
              rcases h with h | h | h | h
              · exact absurd h (by simp)
              · exact absurd h (by simp)
              · exact absurd rfl h
              · simpa using h
            exact ⟨ascii "no hostport in resolver body",
                   by simp [envoyDispatch, headersStatus, hm]⟩
        · exact ⟨ascii "resolver returned " ++ luaToString st,
                 by simp [envoyDispatch, headersStatus, hst]⟩
  · intro hp hok hst hbind
    subst hok
    cases hdrs with
    | none => exact absurd hst (by simp [headersStatus])
    | some hobj =>
      obtain ⟨st⟩ := hobj
      have hst2 : st = some (ascii "200") := by simpa [headersStatus] using hst
      subst hst2
      cases body with
      | none => exact absurd hbind (by simp)
      | some b =>
        have hm : luaMatchHostport b = some hp := by simpa using hbind
        simp [envoyDispatch, headersStatus, hm]

/-- Witness for C8: a failed side call responds 502; a successful call
with a matchable body forwards to the matched hostport. -/
theorem C8_sidecall_gateway_witness :
    (∃ b, envoyDispatch (SideCallResult.mk false none none)
        = LuaOutcome.respond (ascii "502") b) ∧
    envoyDispatch (SideCallResult.mk true (some (LuaHeaders.mk (some (ascii "200"))))
        (some (ascii "\"hostport\": \"a:1\"")))
      = LuaOutcome.forwardTo (ascii "a:1") :=
  ⟨(C8_sidecall_gateway (SideCallResult.mk false none none)).1 (Or.inl rfl),
   (C8_sidecall_gateway (SideCallResult.mk true (some (LuaHeaders.mk (some (ascii "200"))))
        (some (ascii "\"hostport\": \"a:1\"")))).2
     (ascii "a:1") rfl (by decide) (by decide)⟩

/-- C9: the assigned field of the join response is the process's own
hostname:port, independent of the client_id and of the whole selector
configuration: any two nonempty client identifiers against processes that
agree on hostname and PORT get the identical assigned value. -/
theorem C9_join_assigned_independent (e1 e2 : Env) (x y : Str)
    (hx : x ≠ []) (hy : y ≠ []) (hhost : e1.hostname = e2.hostname)
    (hport : e1.PORT = e2.PORT) :
    assignedField (handleJoin e1 x) = some (getSelf e1) ∧
    assignedField (handleJoin e1 x) = assignedField (handleJoin e2 y) := by
  have hself : getSelf e1 = getSelf e2 := by
    unfold getSelf goPort
    rw [hhost, hport]
  have hf : ∀ (e : Env) (c : Str), c ≠ [] →
      assignedField (handleJoin e c) = some (getSelf e) := by
    intro e c hc
    unfold handleJoin
    rw [if_neg hc]
    unfold assignedField
    simp [List.find?]
  exact ⟨hf e1 x hx, by rw [hf e1 x hx, hf e2 y hy, hself]⟩

/-- Witness for C9: two distinct client identifiers against two processes
sharing hostname and port but differing in selector configuration. -/
theorem C9_join_assigned_independent_witness :
    assignedField (handleJoin { hostname := ascii "h1", PORT := ascii "9" } (ascii "X"))
      = some (getSelf { hostname := ascii "h1", PORT := ascii "9" }) ∧
    assignedField (handleJoin { hostname := ascii "h1", PORT := ascii "9" } (ascii "X"))
      = assignedField
          (handleJoin { hostname := ascii "h1", PORT := ascii "9",
                        INDEX_MODE := ascii "numeric" } (ascii "Y")) :=
  C9_join_assigned_independent
    { hostname := ascii "h1", PORT := ascii "9" }
    { hostname := ascii "h1", PORT := ascii "9", INDEX_MODE := ascii "numeric" }
    (ascii "X") (ascii "Y") (by decide) (by decide) rfl rfl

/-- C10: in the legacy path, when the filtered peer list is nonempty the
index (FNV-1a hash as a 64-bit int, truncated-modulo the list length) lies
in [0, length - 1], and the lookup succeeds with that very peer — it never
goes out of range. -/
theorem C10_legacy_index_in_bounds (env : Env) (cid : Str)
    (h : filteredPeers env ≠ []) :
    0 ≤ legacyIdx env cid ∧
    legacyIdx env cid < ((filteredPeers env).length : Int) ∧
    pickByHashLegacy env cid
      = some ((filteredPeers env).get
          ⟨fnv32a cid % (filteredPeers env).length,
           Nat.mod_lt (fnv32a cid) (List.length_pos.mpr h)⟩) := by
  have hlen : 0 < (filteredPeers env).length := List.length_pos.mpr h
  have hmod : fnv32a cid % (filteredPeers env).length < (filteredPeers env).length :=
    Nat.mod_lt (fnv32a cid) hlen
  have hidx : legacyIdx env cid
      = ((fnv32a cid % (filteredPeers env).length : Nat) : Int) := by
    unfold legacyIdx
    exact tmod_natCast (fnv32a cid) (filteredPeers env).length
  refine ⟨by rw [hidx]; omega, by rw [hidx]; omega, ?_⟩
  have hpeers : env.SERVER_PEERS ≠ [] := by
    intro hq
    exact h (filteredPeers_of_empty env hq)
  unfold pickByHashLegacy
  rw [if_neg hpeers, if_neg h]
  unfold legacyIdx
  exact goIndex_mod (filteredPeers env) (fnv32a cid) h

/-- Witness for C10 at a concrete peer list and clientID. -/
theorem C10_legacy_index_in_bounds_witness :
    0 ≤ legacyIdx envTier2 (ascii "zzz") ∧
    legacyIdx envTier2 (ascii "zzz") < ((filteredPeers envTier2).length : Int) ∧
    pickByHashLegacy envTier2 (ascii "zzz")
      = some ((filteredPeers envTier2).get
          ⟨fnv32a (ascii "zzz") % (filteredPeers envTier2).length,
           Nat.mod_lt (fnv32a (ascii "zzz")) (List.length_pos.mpr (by decide))⟩) :=
  C10_legacy_index_in_bounds envTier2 (ascii "zzz") (by decide)

end Routing
